import Mathlib

/-
Shallow embedding of the redux-adv-shoppingCart repository.

Cart slice (src/src/store/cart-slice.js), UI slice (src/src/store/ui-slice.js),
the sendCartData thunk and the isInitial useEffect (documented code in the
segments appended to cart-slice.js), and the fetchCartData thunk
(src/src/notes/02_thunk_example2.md).

JavaScript objects are embedded as structures with exactly the fields the
source creates.  Reads of properties the object does not carry (the source
reads item.id on line items stored with key itemId, and state.item on a
state whose only list field is items, and the thunks read replaceCart and
showNotification on actions objects whose slices declare no such reducers)
are embedded as explicitly named accessors returning Option, with none
standing for the value undefined; operations that would throw a TypeError
at such a read, or at a call of such an undefined value, record the crash
explicitly.
-/

namespace ReduxCart

/-- Line item as pushed by addItemToCart: keys itemId, price, quantity,
totalPrice, name.  The object carries no key id. -/
structure LineItem where
  itemId : String
  price : Int
  quantity : Nat
  totalPrice : Int
  name : String
deriving DecidableEq, Repr

/-- Reading item.id in JavaScript: line items are created with the key
itemId, never id, so the read yields undefined (none). -/
def LineItem.jsId (_ : LineItem) : Option String := none

/-- Cart state: keys items, totalQuantity, totalAmount. -/
structure CartState where
  items : List LineItem
  totalQuantity : Int
  totalAmount : Int
deriving DecidableEq, Repr

/-- Reading state.item in JavaScript: the cart state object carries the key
items, never item, so the read yields undefined (none). -/
def CartState.jsItem (_ : CartState) : Option (List LineItem) := none

/-- initialCartState from cart-slice.js lines 3-7. -/
def initialCartState : CartState :=
  { items := [], totalQuantity := 0, totalAmount := 0 }

/-- Payload dispatched by the product component: an object with keys id,
title, price (src/src/components/Shop/Products.js). -/
structure Product where
  id : String
  price : Int
  title : String
deriving DecidableEq, Repr

/-- JavaScript strict equality between a possibly-undefined string read and a
defined string: undefined === s is false. -/
def jsStrictEq (a : Option String) (b : String) : Bool :=
  match a with
  | some s => s == b
  | none => false

/-- state.items.find with the predicate item.id === targetId. -/
def findCartItem (items : List LineItem) (targetId : String) : Option LineItem :=
  items.find? (fun item => jsStrictEq item.jsId targetId)

/-- In-place mutation of the first list element satisfying p, as JavaScript
mutation of the object returned by find behaves. -/
def updateFirst (p : LineItem → Bool) (f : LineItem → LineItem) :
    List LineItem → List LineItem
  | [] => []
  | x :: xs => if p x then f x :: xs else x :: updateFirst p f xs

/-- addItemToCart reducer, cart-slice.js lines 13-29.  Looks the candidate up
by item.id === newItem.id; if absent, pushes a fresh line item with
quantity 1 and totalPrice equal to the unit price; otherwise increments the
found item and adds the unit price to its totalPrice.  No statement in the
reducer writes totalQuantity or totalAmount. -/
def addItemToCart (state : CartState) (newItem : Product) : CartState :=
  match findCartItem state.items newItem.id with
  | none =>
      { state with items := state.items ++
          [{ itemId := newItem.id, price := newItem.price, quantity := 1,
             totalPrice := newItem.price, name := newItem.title }] }
  | some _ =>
      let bump := fun (item : LineItem) =>
        { item with quantity := item.quantity + 1,
                    totalPrice := item.totalPrice + newItem.price }
      { state with
          items := updateFirst (fun item => jsStrictEq item.jsId newItem.id) bump state.items }

/-- removeItemFromCart reducer, cart-slice.js lines 30-38.  The first
statement reads state.item (an absent property, hence undefined) and calls
find on it, which throws a TypeError; the throw is modeled as none.  The
rest of the body is transcribed for completeness behind that read: a find by
item.id, removal by filter when the quantity is 1, and otherwise a bare
quantity decrement (the source never subtracts from totalPrice here). -/
def removeItemFromCart (state : CartState) (targetId : String) : Option CartState :=
  match state.jsItem with
  | none => none
  | some found =>
      match findCartItem found targetId with
      | none => none
      | some existingItem =>
          if existingItem.quantity == 1 then
            let kept := state.items.filter (fun item => !(jsStrictEq item.jsId targetId))
            some { state with items := kept }
          else
            let decremented := updateFirst (fun item => jsStrictEq item.jsId targetId)
              (fun item => { item with quantity := item.quantity - 1 }) state.items
            some { state with items := decremented }

/-- Actions addressed to the cart slice.  replaceCart is what fetchCartData
dispatches on pull success; the slice itself declares no reducer for it. -/
inductive CartAction where
  | addItemToCart (payload : Product)
  | removeItemFromCart (payload : String)
  | replaceCart (payload : CartState)
deriving DecidableEq, Repr

/-- The keys of the reducers map of createSlice in cart-slice.js. -/
def cartReducerNames : List String := ["addItemToCart", "removeItemFromCart"]

/-- Combined cart reducer.  A reducer map with only addItemToCart and
removeItemFromCart handles any other action by returning the state
unchanged, the redux default case. -/
def cartReducer (state : CartState) : CartAction → Option CartState
  | CartAction.addItemToCart p => some (addItemToCart state p)
  | CartAction.removeItemFromCart targetId => removeItemFromCart state targetId
  | CartAction.replaceCart _ => some state

/-- Sum of the quantity fields over the line items. -/
def sumQuantities (items : List LineItem) : Nat :=
  (items.map LineItem.quantity).sum

/-- Sum of the totalPrice fields over the line items. -/
def sumTotalPrices (items : List LineItem) : Int :=
  (items.map LineItem.totalPrice).sum

/-- First dummy product of Products.js. -/
def p1 : Product := { id := "p1", price := 6, title := "buggati" }

/-- UI state object of ui-slice.js: the single key cartIsVisible. -/
structure UIState where
  cartIsVisible : Bool
deriving DecidableEq, Repr

/-- initialUIstate from ui-slice.js line 3. -/
def initialUIstate : UIState := { cartIsVisible := false }

/-- toggle reducer, ui-slice.js lines 9-11. -/
def toggle (state : UIState) : UIState :=
  { state with cartIsVisible := !state.cartIsVisible }

/-- Actions of the ui slice: the reducers map declares only toggle. -/
inductive UIAction where
  | toggle
deriving DecidableEq, Repr

/-- The keys of the reducers map of createSlice in ui-slice.js. -/
def uiReducerNames : List String := ["toggle"]

/-- Combined ui reducer. -/
def uiReducer (state : UIState) : UIAction → UIState
  | UIAction.toggle => toggle state

/-- Run a sequence of ui actions from a state. -/
def applyUIActions (state : UIState) (acts : List UIAction) : UIState :=
  acts.foldl uiReducer state

/-- Payload of a showNotification dispatch.  The error notification of
sendCartData carries no message key, so message is an Option. -/
structure Notification where
  status : String
  title : String
  message : Option String
deriving DecidableEq, Repr

/-- Outcome of the fetch PUT issued by sendCartData: the promise either
rejects (transport failure) or resolves with a Response object carrying an
ok flag.  A resolved Response object is always truthy. -/
inductive SendOutcome where
  | rejected
  | resolved (ok : Bool)
deriving DecidableEq, Repr

/-- Pending notification of sendCartData. -/
def sendingNotif : Notification :=
  { status := "pending", title := "Sending...", message := some "Sending cart data..." }

/-- Success notification of sendCartData, exactly as dispatched by the
source: status success with an exclamation mark, lowercase title. -/
def sendSuccessNotif : Notification :=
  { status := "success!", title := "success", message := some "Sent Cart Data Successfully" }

/-- Error notification of sendCartData: the dispatched object has only the
keys status and title, no message. -/
def sendErrorNotif : Notification :=
  { status := "error", title := "Error!", message := none }

/-- sendCartData thunk (documented code appended to cart-slice.js).  It
first dispatches the pending notification, then awaits the PUT; sendRequest
throws only when the resolved response is falsy, which a Response object
never is, so every resolved response (ok or not) reaches the success
dispatch, and only a rejected request reaches the catch branch. -/
def sendCartData (_cart : CartState) (outcome : SendOutcome) : List Notification :=
  sendingNotif ::
    match outcome with
    | SendOutcome.rejected => [sendErrorNotif]
    | SendOutcome.resolved _ => [sendSuccessNotif]

/-- Outcome of the fetch GET issued by fetchCartData: the promise either
rejects, or resolves with an ok flag and a decoded body. -/
inductive FetchOutcome where
  | rejected
  | resolved (ok : Bool) (body : CartState)
deriving DecidableEq, Repr

/-- Error notification the catch branch of fetchCartData builds as
argument. -/
def fetchErrorNotif : Notification :=
  { status := "error", title := "Error!", message := some "Fetching cart data failed!" }

/-- An action dispatched by a thunk: either an action addressed to the cart
slice, or a showNotification request addressed to the ui layer. -/
inductive DispatchedAction where
  | cart (a : CartAction)
  | showNotification (n : Notification)
deriving DecidableEq, Repr

/-- Reading cartActions.replaceCart: the cart slice declares reducers only
for addItemToCart and removeItemFromCart, so its actions object carries no
replaceCart property and the read yields undefined (none). -/
def cartActions.replaceCart? : Option (CartState → DispatchedAction) := none

/-- Reading uiActions.showNotification: the ui slice declares only the
toggle reducer, so its actions object carries no showNotification property
and the read yields undefined (none). -/
def uiActions.showNotification? : Option (Notification → DispatchedAction) := none

/-- Result of running a thunk: the actions it managed to dispatch, in
order, and whether it terminated with an uncaught TypeError. -/
structure ThunkRun where
  dispatched : List DispatchedAction
  crashed : Bool
deriving DecidableEq, Repr

/-- Running the catch branch of fetchCartData,
dispatch(uiActions.showNotification(payload)): the payload object is built,
showNotification is read off the ui actions object, and the result is
called; calling undefined throws a TypeError, so nothing reaches
dispatch. -/
def fetchCartDataCatch : ThunkRun :=
  match uiActions.showNotification? with
  | some creator => { dispatched := [creator fetchErrorNotif], crashed := false }
  | none => { dispatched := [], crashed := true }

/-- fetchCartData thunk, notes/02_thunk_example2.md lines 12-40, run
against the slices of this repository.  When fetchData throws (rejection,
or response.ok false) control enters the catch branch directly.  On a
successful fetch the try block evaluates
dispatch(cartActions.replaceCart(cartData)); replaceCart is an absent
property of the cart actions object, so the call of undefined throws a
TypeError inside the try block, which the catch also receives.  Either way
the catch branch then throws at the uiActions.showNotification call. -/
def fetchCartData : FetchOutcome → ThunkRun
  | FetchOutcome.rejected => fetchCartDataCatch
  | FetchOutcome.resolved false _ => fetchCartDataCatch
  | FetchOutcome.resolved true body =>
      match cartActions.replaceCart? with
      | some creator => { dispatched := [creator body], crashed := false }
      | none => fetchCartDataCatch

/-- Effect of one dispatched action on the cart state.  A showNotification
dispatch is addressed to the ui layer and leaves the cart untouched. -/
def applyDispatched (state : CartState) : DispatchedAction → Option CartState
  | DispatchedAction.cart a => cartReducer state a
  | DispatchedAction.showNotification _ => some state

/-- Effect of a dispatch list on the cart state. -/
def applyDispatches (state : CartState) : List DispatchedAction → Option CartState
  | [] => some state
  | a :: rest =>
      match applyDispatched state a with
      | none => none
      | some s2 => applyDispatches s2 rest

/-- State of the useEffect guard documented with sendCartData: the module
level isInitial flag together with the carts pushed so far. -/
structure SyncState where
  isInitial : Bool
  pushes : List CartState
deriving DecidableEq, Repr

/-- Session start: isInitial is true and nothing has been pushed. -/
def initialSyncState : SyncState := { isInitial := true, pushes := [] }

/-- One run of the effect body on an observed cart state: when isInitial is
true it is flipped to false and the body returns early; otherwise
sendCartData is dispatched for the observed cart. -/
def observeCart (s : SyncState) (cart : CartState) : SyncState :=
  if s.isInitial then { s with isInitial := false }
  else { s with pushes := s.pushes ++ [cart] }

/-- The effect run over the whole sequence of observed cart states of a
session, in order. -/
def observeAll (s : SyncState) (trace : List CartState) : SyncState :=
  trace.foldl observeCart s

/-- The cart state the code actually produces after dispatching
addItemToCart with p1 twice from the empty cart: two separate lines of
quantity 1, totals untouched. -/
def duplicatedP1Cart : CartState :=
  { items := [{ itemId := "p1", price := 6, quantity := 1, totalPrice := 6, name := "buggati" },
              { itemId := "p1", price := 6, quantity := 1, totalPrice := 6, name := "buggati" }],
    totalQuantity := 0, totalAmount := 0 }

/-- Cart of the removal scenario: p1 present with quantity 2, totalPrice 12,
and totals recorded accordingly. -/
def cartWithP1Qty2 : CartState :=
  { items := [{ itemId := "p1", price := 6, quantity := 2, totalPrice := 12, name := "buggati" }],
    totalQuantity := 2, totalAmount := 12 }

/-- Success notification the specification describes for sendCartData. -/
def claimedSuccessNotif : Notification :=
  { status := "success", title := "Success", message := some "Sent cart data successfully" }

/-- Helper: once isInitial is false, the effect pushes every observed cart
state, in order, and the flag stays false. -/
theorem observeAll_after_first (trace : List CartState) :
    ∀ ps : List CartState,
      observeAll { isInitial := false, pushes := ps } trace =
        { isInitial := false, pushes := ps ++ trace } := by
  induction trace with
  | nil => intro ps; simp [observeAll]
  | cons c rest ih =>
      intro ps
      have step : observeAll { isInitial := false, pushes := ps } (c :: rest) =
          observeAll { isInitial := false, pushes := ps ++ [c] } rest := rfl
      rw [step, ih (ps ++ [c])]
      simp

/-- C1: the claim says re-adding a product increments the existing line and
that adding p1 twice yields one line of quantity 2, totalPrice 12, with cart
totals 2 and 12.  The code stores lines under the key itemId but looks them
up by item.id, so the second add appends a duplicate line, and neither
reducer ever writes totalQuantity or totalAmount: the result is two lines of
quantity 1 and totals 0. -/
theorem addItem_twice_duplicates_line :
    addItemToCart (addItemToCart initialCartState p1) p1 = duplicatedP1Cart := by decide

/-- C2: the claim says totalQuantity and totalAmount track the sums over the
line items.  Already after one addItemToCart of p1 from the initial state
the line items sum to quantity 1 and totalPrice 6 while both stored totals
remain 0, because no reducer statement updates them. -/
theorem totals_not_recomputed_after_add :
    sumQuantities (addItemToCart initialCartState p1).items = 1 ∧
    (addItemToCart initialCartState p1).totalQuantity = 0 ∧
    sumTotalPrices (addItemToCart initialCartState p1).items = 6 ∧
    (addItemToCart initialCartState p1).totalAmount = 0 := by decide

/-- C3: the claim says removing p1 from a cart where it has quantity 2
leaves it with quantity 1 and totalPrice 6.  The reducer begins by reading
state.item, an absent property, and calling find on the resulting undefined
value, so it throws a TypeError (none) instead. -/
theorem removeItem_throws_on_quantity_two :
    removeItemFromCart cartWithP1Qty2 "p1" = none := rfl

/-- C4: the claim says an absent item id is handled as an explicit NotFound
outcome and the operation never crashes.  The reducer crashes on every
input, the empty cart included, at the read of state.item. -/
theorem removeItem_throws_on_absent_id :
    removeItemFromCart initialCartState "p1" = none := rfl

/-- C5 counterexample: on a well-formed response the emitted sequence is not
the claimed pending notification followed by the claimed success
notification with status success, title Success, message Sent cart data
successfully. -/
theorem sendCartData_claimed_sequence_false :
    (sendCartData initialCartState (SendOutcome.resolved true) =
      [sendingNotif, claimedSuccessNotif]) = False :=
  eq_false (by decide)

/-- C5 amended: sendCartData first emits the pending notification with
status pending, title Sending..., message Sending cart data...; then on any
resolved response, well-formed or not, the notification with status
success!, title success, message Sent Cart Data Successfully; and on a
rejected request the notification with status error, title Error!, and no
message field. -/
theorem sendCartData_actual_sequence (cart : CartState) (ok : Bool) :
    sendCartData cart SendOutcome.rejected = [sendingNotif, sendErrorNotif] ∧
    sendCartData cart (SendOutcome.resolved ok) = [sendingNotif, sendSuccessNotif] :=
  ⟨rfl, rfl⟩

/-- C6: the claim says a failed pull sets the Notification State to the
error record with message Fetching cart data failed! while leaving the cart
at its pre-pull value.  The ui slice declares no showNotification reducer
and holds no notification state, so the catch branch of fetchCartData
throws a TypeError at the uiActions.showNotification call: on every
outcome, failed or successful, the thunk crashes having dispatched nothing.
No notification is ever emitted and no notification state exists to be set;
the cart keeps its pre-pull value only because nothing at all is
dispatched. -/
theorem fetchCartData_crashes_without_notification (s : CartState) (o : FetchOutcome) :
    (fetchCartData o).crashed = true ∧
    (fetchCartData o).dispatched = [] ∧
    applyDispatches s (fetchCartData o).dispatched = some s := by
  cases o with
  | rejected => exact ⟨rfl, rfl, rfl⟩
  | resolved ok body =>
      cases ok with
      | false => exact ⟨rfl, rfl, rfl⟩
      | true => exact ⟨rfl, rfl, rfl⟩

/-- C7: the isInitial flag is true at session start, the first observed cart
state is never pushed and flips the flag to false, every observed state
change after the first is pushed exactly once in order, and from any state
with the flag already false it is never reset to true. -/
theorem isInitial_suppresses_first_push (first : CartState)
    (rest ps trace : List CartState) :
    initialSyncState.isInitial = true ∧
    (observeAll initialSyncState (first :: rest)).pushes = rest ∧
    (observeAll initialSyncState (first :: rest)).isInitial = false ∧
    (observeAll { isInitial := false, pushes := ps } trace).isInitial = false := by
  have h1 : observeAll initialSyncState (first :: rest) =
      observeAll { isInitial := false, pushes := [] } rest := rfl
  refine ⟨rfl, ?_, ?_, ?_⟩
  · rw [h1, observeAll_after_first rest []]
    simp
  · rw [h1, observeAll_after_first rest []]
  · rw [observeAll_after_first trace ps]

/-- C8: a replaceCart action dispatched to the cart reducer leaves the state
unchanged, because the reducers map of the slice declares only addItemToCart
and removeItemFromCart and the redux default case returns the state. -/
theorem replaceCart_leaves_cart_unchanged (s body : CartState) :
    cartReducer s (CartAction.replaceCart body) = some s ∧
    cartReducerNames = ["addItemToCart", "removeItemFromCart"] :=
  ⟨rfl, rfl⟩

/-- C9: the initial ui state is the single boolean field cartIsVisible set
to false, the reducers map of the ui slice declares only toggle and in
particular no showNotification, and every reachable ui state is one of the
two single-field records, so none carries a notification record. -/
theorem ui_state_single_boolean_flag (acts : List UIAction) :
    initialUIstate = { cartIsVisible := false } ∧
    uiReducerNames = ["toggle"] ∧
    uiReducerNames.contains "showNotification" = false ∧
    (applyUIActions initialUIstate acts = { cartIsVisible := false } ∨
      applyUIActions initialUIstate acts = { cartIsVisible := true }) := by
  refine ⟨rfl, rfl, rfl, ?_⟩
  generalize applyUIActions initialUIstate acts = s
  rcases s with ⟨b⟩
  cases b
  · exact Or.inl rfl
  · exact Or.inr rfl

/-- C10: toggle sets cartIsVisible to the negation of its previous value,
and applying toggle twice returns the ui state to its original value. -/
theorem toggle_negates_visibility (s : UIState) :
    (toggle s).cartIsVisible = !s.cartIsVisible ∧ toggle (toggle s) = s := by
  refine ⟨rfl, ?_⟩
  rcases s with ⟨b⟩
  cases b <;> rfl

end ReduxCart
